import Mathlib

/-!
Verification of the CoinSwipe real-time price subscription server.

Shallow embedding of:
* `src/server/src/websocket/subscriptionManager.ts` (`PriceSubscriptionManager`)
* `src/server/src/websocket/socketHandler.ts` (connection gateway)
* `src/server/src/routes/trending.ts` (trending cache route)
* the DexScreener API client (`makeApiRequest`, `ApiCache`, `fetchTokenPrice`,
  `isValidPair`, `validatePairAddress`)

JavaScript `Map`s are modelled as insertion-ordered association lists
(`Map.set` of an existing key updates in place, new keys append at the end,
`forEach` iterates in insertion order); JavaScript `Set`s as insertion-ordered
duplicate-free lists.  Timestamps are `Nat` milliseconds.  `parseFloat` is
modelled with exact rational semantics on decimal numerals (sign, digits,
optional fraction; anything with no leading numeric prefix is NaN, modelled
as `none`); IEEE-754 rounding is not modelled.
-/

namespace CoinSwipe

/-- Insertion-ordered association list lookup (JS `Map.get`). -/
def alGet {α : Type} (l : List (String × α)) (k : String) : Option α :=
  match l with
  | [] => none
  | (k', v) :: t => if k' = k then some v else alGet t k

/-- JS `Map.set`: update in place if the key exists, otherwise append. -/
def alSet {α : Type} (l : List (String × α)) (k : String) (v : α) :
    List (String × α) :=
  match l with
  | [] => [(k, v)]
  | (k', v') :: t => if k' = k then (k', v) :: t else (k', v') :: alSet t k v

/-- JS `Map.delete`: remove the entry for a key. -/
def alRemove {α : Type} (l : List (String × α)) (k : String) :
    List (String × α) :=
  l.filter (fun e => e.1 ≠ k)

/-- JS `Set.add`: append if not already present. -/
def setAdd (l : List String) (x : String) : List String :=
  if x ∈ l then l else l ++ [x]

/-- JS `Set.delete`. -/
def setDelete (l : List String) (x : String) : List String :=
  l.filter (fun y => y ≠ x)

/-- Digit list to natural number (most significant first). -/
def digitsToNat (ds : List Char) : Nat :=
  ds.foldl (fun a c => a * 10 + (c.toNat - 48)) 0

/-- Powers of ten. -/
def pow10 : Nat → Nat
  | 0 => 1
  | n + 1 => 10 * pow10 n

/-- A finite decimal value `mantissa / 10^scale`, the exact value of a
decimal numeral accepted by JS `parseFloat`. -/
structure JsNum where
  mantissa : Int
  scale : Nat
deriving DecidableEq, Repr

/-- Exact comparison of two decimal values by cross-multiplication. -/
def jsNumLt (a b : JsNum) : Bool :=
  a.mantissa * (Int.ofNat (pow10 b.scale)) < b.mantissa * (Int.ofNat (pow10 a.scale))

/-- JS `parseFloat` on decimal numerals, with exact decimal semantics:
leading whitespace is skipped, an optional sign, then digits with an
optional fractional part; trailing junk is ignored; no numeric prefix
gives NaN (`none`).  IEEE-754 rounding is not modelled. -/
def jsParseFloat (s : String) : Option JsNum :=
  let cs := s.data.dropWhile Char.isWhitespace
  let signAndRest : Int × List Char :=
    match cs with
    | '-' :: rest => (-1, rest)
    | '+' :: rest => (1, rest)
    | _ => (1, cs)
  let sign := signAndRest.1
  let cs' := signAndRest.2
  let intDigits := cs'.takeWhile Char.isDigit
  let afterInt := cs'.dropWhile Char.isDigit
  let fracDigits :=
    match afterInt with
    | '.' :: r => r.takeWhile Char.isDigit
    | _ => []
  if intDigits.isEmpty ∧ fracDigits.isEmpty then none
  else
    let m : Nat := digitsToNat intDigits * pow10 fracDigits.length + digitsToNat fracDigits
    some { mantissa := sign * Int.ofNat m, scale := fracDigits.length }

/-- Direction of a price change (`subscriptionManager.ts` line 219). -/
inductive PriceChange where
  | increase
  | decrease
  | unchanged
deriving DecidableEq, Repr

/-- The `newPrice > oldPrice ? 'increase' : newPrice < oldPrice ? 'decrease'
: 'unchanged'` comparison on `parseFloat` values (`subscriptionManager.ts`
lines 221-223); any NaN comparison yields `unchanged`. -/
def numChange (oldP newP : String) : PriceChange :=
  match jsParseFloat oldP, jsParseFloat newP with
  | some a, some b =>
      if jsNumLt a b then .increase
      else if jsNumLt b a then .decrease
      else .unchanged
  | _, _ => .unchanged

/-- Result of `fetchTokenPrice` consumed by a tick (`PriceUpdate` without
the fields the tick ignores). -/
structure PriceData where
  priceUsd : String
  priceChange24h : Rat
deriving DecidableEq, Repr

/-- A client callback.  The registry only ever invokes it and observes
whether it throws, so it is modelled by that one bit. -/
structure Callback where
  fails : Bool
deriving DecidableEq, Repr

/-- `PriceUpdateEvent` (`subscriptionManager.ts` lines 20-26). -/
structure PriceUpdateEvent where
  pairAddress : String
  priceUsd : String
  priceChange24h : Rat
  timestamp : Nat
  change : PriceChange
deriving DecidableEq, Repr

/-- `TokenSubscription` (`subscriptionManager.ts` lines 36-44).
`timerActive` models `updateInterval !== null`. -/
structure Sub where
  pairAddress : String
  clients : List (String × Callback)
  lastPrice : Option String
  timerActive : Bool
  lastFetch : Nat
  fetchCount : Nat
  errorCount : Nat
deriving DecidableEq, Repr

/-- The manager's `subscriptions` map. -/
abbrev RegState := List (String × Sub)

/-- `MAX_ERROR_COUNT` (`subscriptionManager.ts` line 72). -/
def MAX_ERROR_COUNT : Nat := 5

/-- `addSubscription` (`subscriptionManager.ts` lines 89-129): create the
subscription if absent, insert the callback under the client id, start the
timer when `clients.size === 1 && !updateInterval`.  Returns
`isNewSubscription`. -/
def addSubscription (pairAddress clientId : String) (cb : Callback)
    (s : RegState) : RegState × Bool :=
  match alGet s pairAddress with
  | none =>
      let sub : Sub :=
        { pairAddress := pairAddress, clients := [(clientId, cb)],
          lastPrice := none, timerActive := true, lastFetch := 0,
          fetchCount := 0, errorCount := 0 }
      (alSet s pairAddress sub, true)
  | some sub =>
      let clients := alSet sub.clients clientId cb
      let timer :=
        if clients.length = 1 ∧ sub.timerActive = false then true
        else sub.timerActive
      (alSet s pairAddress { sub with clients := clients, timerActive := timer },
        false)

/-- `removeSubscription` (`subscriptionManager.ts` lines 142-170): missing
token is a warned no-op returning `false`; otherwise delete the client and,
when no clients remain, stop the timer and delete the subscription
(returning `false`); with remaining clients return `true`. -/
def removeSubscription (pairAddress clientId : String) (s : RegState) :
    RegState × Bool :=
  match alGet s pairAddress with
  | none => (s, false)
  | some sub =>
      let clients := alRemove sub.clients clientId
      if clients.length = 0 then (alRemove s pairAddress, false)
      else (alSet s pairAddress { sub with clients := clients }, true)

/-- One callback invocation during a tick's emit loop: the client it went
to, the event, the subscription's `lastPrice` at the moment the callback
ran, and whether the callback threw. -/
structure EmitRec where
  clientId : String
  event : PriceUpdateEvent
  observedLastPrice : Option String
  threw : Bool
deriving DecidableEq, Repr

/-- The `subscription.clients.forEach` loop (`subscriptionManager.ts` lines
236-246): invoke each callback in insertion order; a throwing callback is
logged and its client entry deleted.  Returns the surviving client map and
the invocation records in order. -/
def runCallbacks (ev : PriceUpdateEvent) (observed : Option String) :
    List (String × Callback) → List (String × Callback) × List EmitRec
  | [] => ([], [])
  | (cid, cb) :: rest =>
      let tail := runCallbacks ev observed rest
      if cb.fails then
        (tail.1, ⟨cid, ev, observed, true⟩ :: tail.2)
      else
        ((cid, cb) :: tail.1, ⟨cid, ev, observed, false⟩ :: tail.2)

/-- One execution of the `setInterval` body started by `startPriceUpdates`
(`subscriptionManager.ts` lines 190-267), for the subscription of
`pairAddress`.  A tick only fires while a timer is running; `fetch` is the
result of `fetchTokenPrice` (`none` = failed) and `now` the current time.
Returns the new registry state and the callback invocations of this tick. -/
def tick (pairAddress : String) (fetch : Option PriceData) (now : Nat)
    (s : RegState) : RegState × List EmitRec :=
  match alGet s pairAddress with
  | none => (s, [])
  | some sub =>
      if sub.timerActive = false then (s, [])
      else
        let sub1 := { sub with lastFetch := now, fetchCount := sub.fetchCount + 1 }
        match fetch with
        | none =>
            let sub2 := { sub1 with errorCount := sub1.errorCount + 1 }
            if sub2.errorCount ≥ MAX_ERROR_COUNT then
              (alRemove s pairAddress, [])
            else
              (alSet s pairAddress sub2, [])
        | some pd =>
            let sub2 := { sub1 with errorCount := 0 }
            let currentPrice := pd.priceUsd
            let hasChanged := sub2.lastPrice ≠ some currentPrice
            if hasChanged ∨ sub2.lastPrice = none then
              let change :=
                match sub2.lastPrice with
                | none => PriceChange.unchanged
                | some old =>
                    if old ≠ "" ∧ currentPrice ≠ "" then numChange old currentPrice
                    else PriceChange.unchanged
              let ev : PriceUpdateEvent :=
                { pairAddress := pairAddress, priceUsd := currentPrice,
                  priceChange24h := pd.priceChange24h, timestamp := now,
                  change := change }
              let loop := runCallbacks ev sub2.lastPrice sub2.clients
              let sub3 := { sub2 with clients := loop.1, lastPrice := some currentPrice }
              (alSet s pairAddress sub3, loop.2)
            else
              (alSet s pairAddress sub2, [])

/-- One entry of `getSubscriptionStats().subscriptions`
(`subscriptionManager.ts` lines 315-342). -/
structure SubStatEntry where
  pairAddress : String
  clientCount : Nat
  lastPrice : Option String
  fetchCount : Nat
  errorCount : Nat
  lastFetch : Nat
  uptimeSeconds : Int
deriving DecidableEq, Repr

/-- `getSubscriptionStats` return value. -/
structure SubStats where
  totalSubscriptions : Nat
  totalClients : Nat
  subscriptions : List SubStatEntry
deriving DecidableEq, Repr

/-- Default `UPDATE_INTERVAL` (`subscriptionManager.ts` lines 65-67). -/
def UPDATE_INTERVAL : Nat := 2000

/-- `getSubscriptionStats` (`subscriptionManager.ts` lines 311-346). -/
def getSubscriptionStats (now : Nat) (s : RegState) : SubStats :=
  { totalSubscriptions := s.length,
    totalClients := (s.map (fun e => e.2.clients.length)).sum,
    subscriptions := s.map (fun e =>
      { pairAddress := e.1,
        clientCount := e.2.clients.length,
        lastPrice := e.2.lastPrice,
        fetchCount := e.2.fetchCount,
        errorCount := e.2.errorCount,
        lastFetch := e.2.lastFetch,
        uptimeSeconds :=
          if e.2.lastFetch ≠ 0 then
            Int.fdiv ((now : Int) -
              ((e.2.lastFetch : Int) - e.2.fetchCount * UPDATE_INTERVAL)) 1000
          else 0 }) }

/-- `getActiveSubscriptionsCount` (`subscriptionManager.ts` line 299). -/
def getActiveSubscriptionsCount (s : RegState) : Nat := s.length

/-- An operation on the registry: a subscribe, an unsubscribe, or a timer
tick (with its fetch outcome and time). -/
inductive RegOp where
  | add (pairAddress clientId : String) (cb : Callback)
  | remove (pairAddress clientId : String)
  | tick (pairAddress : String) (fetch : Option PriceData) (now : Nat)
deriving DecidableEq, Repr

/-- Apply one operation, collecting this operation's emitted invocations. -/
def regStepT (s : RegState) (op : RegOp) : RegState × List EmitRec :=
  match op with
  | .add a c cb => ((addSubscription a c cb s).1, [])
  | .remove a c => ((removeSubscription a c s).1, [])
  | .tick a f n => tick a f n s

/-- Run a sequence of operations from the empty registry, collecting every
callback invocation in order. -/
def runRegT (ops : List RegOp) : RegState × List EmitRec :=
  ops.foldl (fun p op =>
    let q := regStepT p.1 op
    (q.1, p.2 ++ q.2)) ([], [])

/-- The registry state reached by a sequence of operations. -/
def runReg (ops : List RegOp) : RegState :=
  (runRegT ops).1

/-- The `priceUpdate` event a successful tick constructs when it emits
(`subscriptionManager.ts` lines 218-233), as a function of the pre-tick
subscription. -/
def tickEvent (pairAddress : String) (sub : Sub) (pd : PriceData) (now : Nat) :
    PriceUpdateEvent :=
  { pairAddress := pairAddress, priceUsd := pd.priceUsd,
    priceChange24h := pd.priceChange24h, timestamp := now,
    change :=
      match sub.lastPrice with
      | none => PriceChange.unchanged
      | some old =>
          if old ≠ "" ∧ pd.priceUsd ≠ "" then numChange old pd.priceUsd
          else PriceChange.unchanged }

/-! ### Validation (`utils/validation.ts`) -/

/-- A hexadecimal digit as accepted by `[a-fA-F0-9]`. -/
def isHexDigit (c : Char) : Bool :=
  c.isDigit || ('a' ≤ c ∧ c ≤ 'f') || ('A' ≤ c ∧ c ≤ 'F')

/-- The regex `^0x[a-fA-F0-9]{40}$` on a character list. -/
def isEthAddressChars : List Char → Bool
  | '0' :: 'x' :: rest => rest.length = 40 && rest.all isHexDigit
  | _ => false

/-- `validatePairAddress` (`utils/validation.ts`): falsy or non-string input
is rejected, otherwise the address must match `^0x[a-fA-F0-9]{40}$`. -/
def validatePairAddress (address : String) : Bool :=
  if address = "" then false
  else isEthAddressChars address.data

/-! ### Connection gateway (`socketHandler.ts`) -/

/-- One entry of `connectionTracker` (`socketHandler.ts` lines 55-59),
keyed by client IP address. -/
structure Tracker where
  count : Nat
  lastConnection : Nat
  subscriptions : List String
deriving DecidableEq, Repr

/-- The gateway's shared state: the per-IP `connectionTracker` plus the
global `PriceSubscriptionManager` registry. -/
structure GWState where
  connectionTracker : List (String × Tracker)
  registry : RegState
deriving DecidableEq, Repr

/-- Default `MAX_CONNECTIONS_PER_IP` (`socketHandler.ts` line 268). -/
def MAX_CONNECTIONS_PER_IP : Nat := 10

/-- `RATE_LIMIT_WINDOW` (`socketHandler.ts` line 269). -/
def RATE_LIMIT_WINDOW : Nat := 60000

/-- The per-client subscription limit (`socketHandler.ts` line 126). -/
def MAX_SUBSCRIPTIONS : Nat := 5

/-- `enforceRateLimit` followed by `initializeClientTracking`
(`socketHandler.ts` lines 81-99, 267-317) for a new connection from `ip`
at time `now`.  Returns the new state and whether the connection was
accepted; a rejected connection is disconnected before any handlers or
tracking are installed. -/
def handleConnect (now : Nat) (ip : String) (gs : GWState) : GWState × Bool :=
  match alGet gs.connectionTracker ip with
  | some tr =>
      if now - tr.lastConnection < RATE_LIMIT_WINDOW then
        if tr.count ≥ MAX_CONNECTIONS_PER_IP then (gs, false)
        else
          let tr' := { tr with count := tr.count + 1, lastConnection := now }
          ({ gs with connectionTracker := alSet gs.connectionTracker ip tr' }, true)
      else
        let tr' := { tr with count := 1, lastConnection := now }
        ({ gs with connectionTracker := alSet gs.connectionTracker ip tr' }, true)
  | none =>
      let tr' : Tracker := { count := 1, lastConnection := now, subscriptions := [] }
      ({ gs with connectionTracker := alSet gs.connectionTracker ip tr' }, true)

/-- Outcome of a `subscribe` request as observed by the client. -/
inductive SubscribeOutcome where
  | invalidAddress
  | limitExceeded
  | subscribed (isNew : Bool)
deriving DecidableEq, Repr

/-- The `socket.on('subscribe')` handler (`socketHandler.ts` lines
113-160) for a socket with id `cid` from address `ip`: validate the pair
address, enforce the per-IP subscription limit, register the callback in
the registry, then record the identifier in the IP tracker's set. -/
def handleSubscribe (ip cid : String) (cb : Callback) (pairAddress : String)
    (gs : GWState) : GWState × SubscribeOutcome :=
  if validatePairAddress pairAddress = false then (gs, .invalidAddress)
  else
    let tr? := alGet gs.connectionTracker ip
    let overLimit : Bool :=
      match tr? with
      | some tr => decide (tr.subscriptions.length ≥ MAX_SUBSCRIPTIONS)
      | none => false
    if overLimit then (gs, .limitExceeded)
    else
      let res := addSubscription pairAddress cid cb gs.registry
      let ct :=
        match tr? with
        | some tr =>
            let tr' := { tr with subscriptions := setAdd tr.subscriptions pairAddress }
            alSet gs.connectionTracker ip tr'
        | none => gs.connectionTracker
      ({ connectionTracker := ct, registry := res.1 }, .subscribed res.2)

/-- The `socket.on('unsubscribe')` handler (`socketHandler.ts` lines
174-202): remove the client from the registry subscription, then delete
the identifier from the IP tracker's set.  Returns
`hasRemainingSubscribers`. -/
def handleUnsubscribe (ip cid pairAddress : String) (gs : GWState) :
    GWState × Bool :=
  let res := removeSubscription pairAddress cid gs.registry
  let ct :=
    match alGet gs.connectionTracker ip with
    | some tr =>
        let tr' := { tr with subscriptions := setDelete tr.subscriptions pairAddress }
        alSet gs.connectionTracker ip tr'
    | none => gs.connectionTracker
  ({ connectionTracker := ct, registry := res.1 }, res.2)

/-- The `socket.on('disconnect')` handler followed by
`cleanupClientTracking` (`socketHandler.ts` lines 217-239, 328-342):
unsubscribe the client from every identifier in the IP tracker's set,
then decrement the IP connection count, dropping the tracker at zero. -/
def handleDisconnect (ip cid : String) (gs : GWState) : GWState :=
  let subs :=
    match alGet gs.connectionTracker ip with
    | some tr => tr.subscriptions
    | none => []
  let reg := subs.foldl (fun r a => (removeSubscription a cid r).1) gs.registry
  let ct :=
    match alGet gs.connectionTracker ip with
    | some tr =>
        if tr.count - 1 = 0 then alRemove gs.connectionTracker ip
        else alSet gs.connectionTracker ip { tr with count := tr.count - 1 }
    | none => gs.connectionTracker
  { connectionTracker := ct, registry := reg }

/-- The number of registry subscriptions that currently hold a callback
for a given client. -/
def countClientSubs (cid : String) (s : RegState) : Nat :=
  (s.filter (fun e => (alGet e.2.clients cid).isSome)).length

/-! ### Trending route (`routes/trending.ts`) -/

/-- A trending token as cached by the route.  Its fields are opaque to the
route's caching logic, so it is modelled by an identity tag. -/
structure TrendingToken where
  tag : Nat
deriving DecidableEq, Repr

/-- Default `TRENDING_CACHE_DURATION` (`trending.ts` line 25). -/
def CACHE_DURATION : Nat := 20000

/-- The route's module-level mutable state (`trending.ts` lines 26-28). -/
structure TrendingState where
  cachedTokens : List TrendingToken
  lastFetch : Nat
  fetchInProgress : Bool
deriving DecidableEq, Repr

/-- `TrendingResponse.meta` (`trending.ts` lines 35-42); `fetchDuration` is
spread into the object only when truthy. -/
structure TrendingMeta where
  cached : Bool
  lastUpdate : Nat
  nextUpdate : Nat
  count : Nat
  cacheHit : Bool
  fetchDuration : Option Nat
deriving DecidableEq, Repr

/-- Outcome of `GET /api/trending`: a 200 JSON response (with the
`X-Cache-Status` and `X-Cache-Age` headers) or the 500 structured error
body produced by the outer catch (`trending.ts` lines 139-154). -/
inductive TrendingResult where
  | ok (tokens : List TrendingToken) (meta : TrendingMeta)
      (xCacheStatusHit : Bool) (xCacheAge : Nat)
  | serverError (error message : String)
deriving DecidableEq, Repr

/-- `GET /api/trending` (`trending.ts` lines 58-155).  `limitQ` is the
parsed `limit` query value (`none` when absent or NaN; `parseInt(q) || 50`
also turns a parsed 0 into 50), `force` the `force=true` flag, `fetch` the
outcome of `fetchTrendingTokens` (`none` = the fetch threw), `fetchDur`
the measured fetch duration, `now` the request time. -/
def trendingLimit (limitQ : Option Nat) : Nat :=
  min (match limitQ with
    | some n => if n = 0 then 50 else n
    | none => 50) 100

/-- `GET /api/trending` request handling proper, see `trendingLimit`. -/
def handleTrendingGet (now : Nat) (limitQ : Option Nat) (force : Bool)
    (fetch : Option (List TrendingToken)) (fetchDur : Nat)
    (st : TrendingState) : TrendingState × TrendingResult :=
  let limit := trendingLimit limitQ
  let cacheAge := now - st.lastFetch
  let shouldRefresh := force || st.cachedTokens.isEmpty ||
    decide (cacheAge > CACHE_DURATION)
  if shouldRefresh && !st.fetchInProgress then
    match fetch with
    | some freshTokens =>
        let st' := { st with cachedTokens := freshTokens, lastFetch := now }
        let limited := st'.cachedTokens.take limit
        let meta : TrendingMeta :=
          { cached := true, lastUpdate := st'.lastFetch,
            nextUpdate := st'.lastFetch + CACHE_DURATION,
            count := limited.length, cacheHit := false,
            fetchDuration := if fetchDur = 0 then none else some fetchDur }
        (st', .ok limited meta false cacheAge)
    | none =>
        if st.cachedTokens.isEmpty then
          (st, .serverError "Failed to fetch trending tokens"
            "No trending tokens available")
        else
          let limited := st.cachedTokens.take limit
          let meta : TrendingMeta :=
            { cached := true, lastUpdate := st.lastFetch,
              nextUpdate := st.lastFetch + CACHE_DURATION,
              count := limited.length, cacheHit := false,
              fetchDuration := none }
          (st, .ok limited meta false cacheAge)
  else
    let limited := st.cachedTokens.take limit
    let meta : TrendingMeta :=
      { cached := true, lastUpdate := st.lastFetch,
        nextUpdate := st.lastFetch + CACHE_DURATION,
        count := limited.length, cacheHit := true,
        fetchDuration := none }
    (st, .ok limited meta true cacheAge)

/-- Whether a trending result is the 500 error. -/
def TrendingResult.isError : TrendingResult → Bool
  | .serverError _ _ => true
  | .ok _ _ _ _ => false

/-- The `meta.cacheHit` field of a 200 trending response. -/
def TrendingResult.cacheHit : TrendingResult → Option Bool
  | .ok _ m _ _ => some m.cacheHit
  | .serverError _ _ => none

/-- The token list of a 200 trending response. -/
def TrendingResult.tokens : TrendingResult → Option (List TrendingToken)
  | .ok t _ _ _ => some t
  | .serverError _ _ => none

/-! ### DexScreener API client (`services/dexScreenerApi.ts`) -/

/-- A pair object from a DexScreener JSON response.  Fields typed
`Option String` are `none` when absent, null, or not a string (a
non-string value fails both the truthiness and `typeof` checks of
`isValidPair`); `priceChangeH24` is `pair.priceChange?.h24`. -/
structure DexPair where
  pairAddress : Option String
  baseTokenName : Option String
  baseTokenSymbol : Option String
  baseTokenAddress : Option String
  priceUsd : Option String
  chainId : Option String
  priceChangeH24 : Option Rat
deriving DecidableEq

/-- JS truthiness of a possibly-missing string field. -/
def truthyS : Option String → Bool
  | some s => s ≠ ""
  | none => false

/-- The address-regex part of `isValidPair` applied to a field. -/
def ethAddrField : Option String → Bool
  | some s => isEthAddressChars s.data
  | none => false

/-- `isValidPair` (`dexScreenerApi.ts` lines 805-820). -/
def isValidPair (pair : DexPair) : Bool :=
  truthyS pair.pairAddress && truthyS pair.baseTokenName &&
  truthyS pair.baseTokenSymbol && truthyS pair.baseTokenAddress &&
  truthyS pair.priceUsd && (pair.chainId = some "base") &&
  ethAddrField pair.pairAddress

/-- A whole JSON document as cached by `ApiCache`.  Only its truthiness
and (for price fetches) its `pairs` field matter to the client:
`jnullish` stands for a falsy document (`null`, `false`, `0`, `""`),
`pairsResponse` for an object whose `pairs` field is `none` when missing,
null or not an array, and `other` for any other truthy document. -/
inductive ApiData where
  | jnullish
  | pairsResponse (pairs : Option (List DexPair))
  | other
deriving DecidableEq

/-- JS truthiness of an `ApiData` document. -/
def ApiData.truthy : ApiData → Bool
  | .jnullish => false
  | _ => true

/-- One `ApiCache` entry (`dexScreenerApi.ts` lines 496-505). -/
structure CacheEntry where
  data : ApiData
  timestamp : Nat
  ttl : Nat
deriving DecidableEq

/-- The `ApiCache` map, keyed by request URL. -/
abbrev CacheState := List (String × CacheEntry)

/-- `ApiCache.get` (`dexScreenerApi.ts` lines 507-518): a missing key
returns null; an entry with `now - timestamp > ttl` is deleted and returns
null; otherwise the stored data is returned. -/
def cacheGet (now : Nat) (key : String) (c : CacheState) :
    Option ApiData × CacheState :=
  match alGet c key with
  | none => (none, c)
  | some e =>
      if now - e.timestamp > e.ttl then (none, alRemove c key)
      else (some e.data, c)

/-- `ApiCache.set` (`dexScreenerApi.ts` lines 499-505). -/
def cacheSet (now : Nat) (key : String) (d : ApiData) (ttlMs : Nat)
    (c : CacheState) : CacheState :=
  alSet c key { data := d, timestamp := now, ttl := ttlMs }

/-- Trace of one `makeApiRequest` call: its result (`none` = it threw),
whether the rate limiter's `throttle` ran, whether a network request was
made, and the cache afterwards. -/
structure ApiRequestTrace where
  result : Option ApiData
  rateLimited : Bool
  networkCalled : Bool
  cache : CacheState
deriving DecidableEq

/-- `makeApiRequest` (`dexScreenerApi.ts` lines 559-607): with a positive
`cacheTtl` the cache is consulted first and a truthy cached value is
returned immediately (`if (cached)`); otherwise the rate limiter runs and
the network is called (`net` is its outcome, `none` = HTTP error status,
timeout or network failure, which is rethrown); a successful response is
cached when `cacheTtl > 0`. -/
def makeApiRequest (now : Nat) (url : String) (cacheTtl : Nat)
    (net : Option ApiData) (c : CacheState) : ApiRequestTrace :=
  let hitAndCache := if cacheTtl > 0 then cacheGet now url c else (none, c)
  let proceed : CacheState → ApiRequestTrace := fun c1 =>
    match net with
    | none => { result := none, rateLimited := true, networkCalled := true, cache := c1 }
    | some d =>
        let c2 := if cacheTtl > 0 then cacheSet now url d cacheTtl c1 else c1
        { result := some d, rateLimited := true, networkCalled := true, cache := c2 }
  match hitAndCache.1 with
  | some d =>
      if d.truthy then
        { result := some d, rateLimited := false, networkCalled := false,
          cache := hitAndCache.2 }
      else proceed hitAndCache.2
  | none => proceed hitAndCache.2

/-- `PriceUpdate` (`dexScreenerApi.ts` lines 486-491). -/
structure PriceUpdate where
  pairAddress : String
  priceUsd : String
  priceChange24h : Rat
  timestamp : Nat
deriving DecidableEq

/-- Outcome of the `makeApiRequest` call inside `fetchTokenPrice`:
either it threw, or it returned a document whose `pairs` field is `none`
when the response is falsy, `pairs` is missing, null or not an array. -/
inductive FetchPriceOutcome where
  | threw
  | ok (pairs : Option (List DexPair))
deriving DecidableEq

/-- `fetchTokenPrice` (`dexScreenerApi.ts` lines 730-763): every failure
path (request threw; missing/empty `pairs`; first pair with falsy
`priceUsd` or failing `isValidPair`) returns null; otherwise a
`PriceUpdate` built from the first pair. -/
def fetchTokenPrice (pairAddress : String) (now : Nat)
    (o : FetchPriceOutcome) : Option PriceUpdate :=
  match o with
  | .threw => none
  | .ok none => none
  | .ok (some []) => none
  | .ok (some (pair :: _)) =>
      if truthyS pair.priceUsd = false ∨ isValidPair pair = false then none
      else
        some
          { pairAddress := pairAddress,
            priceUsd := pair.priceUsd.getD "",
            priceChange24h := pair.priceChangeH24.getD 0,
            timestamp := now }

/-! ### Concrete fixtures for counterexamples and witnesses -/

/-- A well-formed pair address. -/
def addrA : String := "0xaaaaaaaaaaaaaaaaaaaaaaaaaaaaaaaaaaaaaaaa"

/-- Six distinct well-formed pair addresses. -/
def tok1 : String := "0x1111111111111111111111111111111111111111"

def tok2 : String := "0x2222222222222222222222222222222222222222"

def tok3 : String := "0x3333333333333333333333333333333333333333"

def tok4 : String := "0x4444444444444444444444444444444444444444"

def tok5 : String := "0x5555555555555555555555555555555555555555"

def tok6 : String := "0x6666666666666666666666666666666666666666"

/-- A client IP address. -/
def ipA : String := "10.0.0.1"

/-- A callback that always throws when invoked. -/
def failCB : Callback := { fails := true }

/-- A callback that never throws. -/
def okCB : Callback := { fails := false }

/-- One client whose callback throws subscribes, then a tick with a
successful fetch emits, the callback throws and is removed. -/
def c1CexOps : List RegOp :=
  [RegOp.add addrA "clientA" failCB,
   RegOp.tick addrA (some { priceUsd := "1.0", priceChange24h := 0 }) 2000]

/-- A single ordinary subscribe. -/
def c1WitOps : List RegOp := [RegOp.add addrA "clientA" okCB]

/-- The subscription produced by `c1WitOps`. -/
def c1WitSub : Sub :=
  { pairAddress := addrA, clients := [("clientA", okCB)], lastPrice := none,
    timerActive := true, lastFetch := 0, fetchCount := 0, errorCount := 0 }

/-- One subscriber and the fetched price sequence 1.00, 1.00, 1.00, 1.05
of the spec's change-only-emission scenario. -/
def c2SeqOps : List RegOp :=
  [RegOp.add addrA "clientA" okCB,
   RegOp.tick addrA (some { priceUsd := "1.00", priceChange24h := 0 }) 2000,
   RegOp.tick addrA (some { priceUsd := "1.00", priceChange24h := 0 }) 4000,
   RegOp.tick addrA (some { priceUsd := "1.00", priceChange24h := 0 }) 6000,
   RegOp.tick addrA (some { priceUsd := "1.05", priceChange24h := 0 }) 8000]

/-- A registry holding one subscription with one healthy subscriber and a
known last price. -/
def c3CexState : RegState :=
  [(addrA,
    { pairAddress := addrA, clients := [("clientA", okCB)],
      lastPrice := some "1.0", timerActive := true, lastFetch := 2000,
      fetchCount := 1, errorCount := 0 })]

/-- A subscription whose error counter is one failure away from the
threshold. -/
def c4WitSub : Sub :=
  { pairAddress := addrA, clients := [("clientA", okCB)],
    lastPrice := some "1.0", timerActive := true, lastFetch := 8000,
    fetchCount := 5, errorCount := 4 }

/-- A registry holding only `c4WitSub`. -/
def c4WitState : RegState := [(addrA, c4WitSub)]

/-- The empty gateway. -/
def gw0 : GWState := { connectionTracker := [], registry := [] }

/-- Client A connects from `ipA`. -/
def gw1 : GWState := (handleConnect 0 ipA gw0).1

/-- Client B connects from the same IP. -/
def gw2 : GWState := (handleConnect 0 ipA gw1).1

/-- Client A subscribes to five distinct tokens. -/
def gw3 : GWState := (handleSubscribe ipA "A" okCB tok1 gw2).1

def gw4 : GWState := (handleSubscribe ipA "A" okCB tok2 gw3).1

def gw5 : GWState := (handleSubscribe ipA "A" okCB tok3 gw4).1

def gw6 : GWState := (handleSubscribe ipA "A" okCB tok4 gw5).1

def gw7 : GWState := (handleSubscribe ipA "A" okCB tok5 gw6).1

/-- Client B, which never subscribed to `tok1`, sends an unsubscribe for
it, shrinking the shared per-IP tracked set. -/
def gw8 : GWState := (handleUnsubscribe ipA "B" tok1 gw7).1

/-- Client A, still holding five live registry subscriptions, requests a
sixth. -/
def gw9 : GWState × SubscribeOutcome := handleSubscribe ipA "A" okCB tok6 gw8

/-- A subscribes to one token, same-IP client B unsubscribes it from the
shared tracked set, then A disconnects. -/
def gwD3 : GWState := (handleSubscribe ipA "A" okCB tok1 gw2).1

def gwD4 : GWState := (handleUnsubscribe ipA "B" tok1 gwD3).1

def gwD5 : GWState := handleDisconnect ipA "A" gwD4

/-- A trending cache state holding one token fetched at time 0. -/
def c8CexState : TrendingState :=
  { cachedTokens := [{ tag := 0 }], lastFetch := 0, fetchInProgress := false }

/-- An API cache holding a fresh entry whose stored document is falsy
(an upstream 200 response whose JSON body was `null`). -/
def c9CexCache : CacheState :=
  [("u", { data := ApiData.jnullish, timestamp := 0, ttl := 1000 })]

/-- An API cache holding a fresh truthy entry. -/
def c9WitCache : CacheState :=
  [("u", { data := ApiData.other, timestamp := 0, ttl := 1000 })]

/-- A pair that passes `isValidPair`. -/
def c10WitPair : DexPair :=
  { pairAddress := some addrA, baseTokenName := some "Token A",
    baseTokenSymbol := some "TKA", baseTokenAddress := some tok1,
    priceUsd := some "1.2345", chainId := some "base",
    priceChangeH24 := some 2 }

/-! ### Association-list lemmas -/

theorem alGet_alSet_self {α : Type} (l : List (String × α)) (k : String) (v : α) :
    alGet (alSet l k v) k = some v := by
  induction l with
  | nil => simp [alSet, alGet]
  | cons e t ih =>
      obtain ⟨k', v'⟩ := e
      by_cases h : k' = k
      · simp [alSet, alGet, h]
      · simp [alSet, alGet, h, ih]

theorem alGet_alSet_ne {α : Type} (l : List (String × α)) (k k' : String) (v : α)
    (h : k' ≠ k) : alGet (alSet l k v) k' = alGet l k' := by
  induction l with
  | nil => simp [alSet, alGet, Ne.symm h]
  | cons e t ih =>
      obtain ⟨k'', v''⟩ := e
      by_cases hk : k'' = k
      · subst hk
        simp [alSet, alGet, Ne.symm h]
      · by_cases hk' : k'' = k'
        · subst hk'
          simp [alSet, alGet, hk]
        · simp [alSet, alGet, hk, hk', ih]

theorem alGet_alRemove_self {α : Type} (l : List (String × α)) (k : String) :
    alGet (alRemove l k) k = none := by
  induction l with
  | nil => simp [alRemove, alGet]
  | cons e t ih =>
      obtain ⟨k', v'⟩ := e
      by_cases h : k' = k
      · simpa [alRemove, alGet, h] using ih
      · simpa [alRemove, alGet, h] using ih

theorem alRemove_cons {α : Type} (e : String × α) (t : List (String × α))
    (k : String) :
    alRemove (e :: t) k = if e.1 = k then alRemove t k else e :: alRemove t k := by
  by_cases h : e.1 = k <;> simp [alRemove, List.filter_cons, h]

theorem alGet_alRemove_ne {α : Type} (l : List (String × α)) (k k' : String)
    (h : k' ≠ k) : alGet (alRemove l k) k' = alGet l k' := by
  induction l with
  | nil => simp [alRemove, alGet]
  | cons e t ih =>
      obtain ⟨k'', v''⟩ := e
      rw [alRemove_cons]
      by_cases hk : k'' = k
      · rw [if_pos hk]
        subst hk
        simp [alGet, Ne.symm h, ih]
      · rw [if_neg hk]
        simp [alGet, ih]

theorem mem_alSet {α : Type} {l : List (String × α)} {k : String} {v : α}
    {e : String × α} (h : e ∈ alSet l k v) : e = (k, v) ∨ e ∈ l := by
  induction l with
  | nil => simpa [alSet] using h
  | cons f t ih =>
      obtain ⟨k', v'⟩ := f
      by_cases hk : k' = k
      · subst hk
        rcases (by simpa [alSet] using h : e = (k', v) ∨ e ∈ t) with h1 | h1
        · exact Or.inl h1
        · exact Or.inr (List.mem_cons_of_mem _ h1)
      · rcases (by simpa [alSet, hk] using h : e = (k', v') ∨ e ∈ alSet t k v) with h1 | h1
        · exact Or.inr (by simp [h1])
        · rcases ih h1 with h2 | h2
          · exact Or.inl h2
          · exact Or.inr (List.mem_cons_of_mem _ h2)

theorem mem_alRemove {α : Type} {l : List (String × α)} {k : String}
    {e : String × α} (h : e ∈ alRemove l k) : e ∈ l :=
  List.mem_of_mem_filter h

theorem alGet_mem {α : Type} {l : List (String × α)} {k : String} {v : α}
    (h : alGet l k = some v) : (k, v) ∈ l := by
  induction l with
  | nil => simp [alGet] at h
  | cons e t ih =>
      obtain ⟨k', v'⟩ := e
      by_cases hk : k' = k
      · subst hk
        simp [alGet] at h
        simp [h]
      · exact List.mem_cons_of_mem _ (ih (by simpa [alGet, hk] using h))

theorem alGet_eq_none_iff {α : Type} {l : List (String × α)} {k : String} :
    alGet l k = none ↔ ∀ e ∈ l, e.1 ≠ k := by
  induction l with
  | nil => simp [alGet]
  | cons e t ih =>
      obtain ⟨k', v'⟩ := e
      by_cases hk : k' = k
      · subst hk
        simp [alGet]
      · simp [alGet, hk, ih]

/-! ### The registry timer invariant (claim C1) -/

/-- Every subscription present in the registry map has a running timer. -/
def TimersOn (s : RegState) : Prop :=
  ∀ e ∈ s, e.2.timerActive = true

theorem timersOn_addSubscription {s : RegState} (h : TimersOn s)
    (a c : String) (cb : Callback) : TimersOn (addSubscription a c cb s).1 := by
  intro e he
  unfold addSubscription at he
  cases hg : alGet s a with
  | none =>
      rw [hg] at he
      simp only at he
      rcases mem_alSet he with h1 | h1
      · subst h1; rfl
      · exact h e h1
  | some sub =>
      rw [hg] at he
      simp only at he
      rcases mem_alSet he with h1 | h1
      · subst h1
        by_cases hc : (alSet sub.clients c cb).length = 1 ∧ sub.timerActive = false
        · simp [hc]
        · have := h _ (alGet_mem hg)
          simp only [hc, if_neg hc]
          exact this
      · exact h e h1

theorem timersOn_removeSubscription {s : RegState} (h : TimersOn s)
    (a c : String) : TimersOn (removeSubscription a c s).1 := by
  intro e he
  unfold removeSubscription at he
  cases hg : alGet s a with
  | none =>
      rw [hg] at he
      exact h e he
  | some sub =>
      rw [hg] at he
      simp only at he
      by_cases hc : (alRemove sub.clients c).length = 0
      · rw [if_pos hc] at he
        exact h e (mem_alRemove he)
      · rw [if_neg hc] at he
        rcases mem_alSet he with h1 | h1
        · subst h1
          simpa using h (a, sub) (alGet_mem hg)
        · exact h e h1

theorem timersOn_tick {s : RegState} (h : TimersOn s)
    (a : String) (f : Option PriceData) (n : Nat) : TimersOn (tick a f n s).1 := by
  intro e he
  unfold tick at he
  cases hg : alGet s a with
  | none =>
      rw [hg] at he
      exact h e he
  | some sub =>
      rw [hg] at he
      simp only at he
      by_cases ht : sub.timerActive = false
      · rw [if_pos ht] at he
        exact h e he
      · rw [if_neg ht] at he
        have hsub : sub.timerActive = true := h _ (alGet_mem hg)
        cases f with
        | none =>
            simp only at he
            by_cases herr : sub.errorCount + 1 ≥ MAX_ERROR_COUNT
            · rw [if_pos herr] at he
              exact h e (mem_alRemove he)
            · rw [if_neg herr] at he
              rcases mem_alSet he with h1 | h1
              · subst h1; exact hsub
              · exact h e h1
        | some pd =>
            simp only at he
            by_cases hch : (sub.lastPrice ≠ some pd.priceUsd) ∨ sub.lastPrice = none
            · rw [if_pos hch] at he
              rcases mem_alSet he with h1 | h1
              · subst h1; exact hsub
              · exact h e h1
            · rw [if_neg hch] at he
              rcases mem_alSet he with h1 | h1
              · subst h1; exact hsub
              · exact h e h1

theorem timersOn_regStepT {s : RegState} (h : TimersOn s) (op : RegOp) :
    TimersOn (regStepT s op).1 := by
  cases op with
  | add a c cb => exact timersOn_addSubscription h a c cb
  | remove a c => exact timersOn_removeSubscription h a c
  | tick a f n => exact timersOn_tick h a f n

theorem timersOn_foldl (ops : List RegOp) :
    ∀ p : RegState × List EmitRec, TimersOn p.1 →
      TimersOn (ops.foldl (fun p op =>
        let q := regStepT p.1 op
        (q.1, p.2 ++ q.2)) p).1 := by
  induction ops with
  | nil => intro p h; exact h
  | cons op rest ih =>
      intro p h
      exact ih _ (timersOn_regStepT h op)

theorem timersOn_runReg (ops : List RegOp) : TimersOn (runReg ops) :=
  timersOn_foldl ops ([], []) (by intro e he; simp at he)

/-! ### Emit-loop lemmas -/

theorem runCallbacks_clientIds (ev : PriceUpdateEvent) (obs : Option String)
    (l : List (String × Callback)) :
    ((runCallbacks ev obs l).2).map (fun r => r.clientId) = l.map (fun c => c.1) := by
  induction l with
  | nil => simp [runCallbacks]
  | cons c t ih =>
      obtain ⟨cid, cb⟩ := c
      by_cases h : cb.fails <;> simp [runCallbacks, h, ih]

theorem runCallbacks_event (ev : PriceUpdateEvent) (obs : Option String)
    (l : List (String × Callback)) :
    ∀ r ∈ (runCallbacks ev obs l).2, r.event = ev ∧ r.observedLastPrice = obs := by
  induction l with
  | nil => simp [runCallbacks]
  | cons c t ih =>
      obtain ⟨cid, cb⟩ := c
      intro r hr
      by_cases h : cb.fails
      · simp only [runCallbacks, h, if_pos] at hr
        rcases List.mem_cons.1 hr with h1 | h1
        · subst h1; exact ⟨rfl, rfl⟩
        · exact ih r h1
      · simp only [runCallbacks, h] at hr
        rcases List.mem_cons.1 hr with h1 | h1
        · subst h1; exact ⟨rfl, rfl⟩
        · exact ih r h1

theorem jsParseFloat_empty : jsParseFloat "" = none := by decide

theorem numChange_empty_left (x : String) : numChange "" x = .unchanged := by
  cases h : jsParseFloat x <;> simp [numChange, jsParseFloat_empty, h]

theorem numChange_empty_right (x : String) : numChange x "" = .unchanged := by
  cases h : jsParseFloat x <;> simp [numChange, jsParseFloat_empty, h]

theorem alSet_same {α : Type} {l : List (String × α)} {k : String} {v : α}
    (h : alGet l k = some v) : alSet l k v = l := by
  induction l with
  | nil => simp [alGet] at h
  | cons e t ih =>
      obtain ⟨k', v'⟩ := e
      by_cases hk : k' = k
      · subst hk
        simp only [alGet, if_true, eq_self_iff_true, if_pos] at h
        cases h
        simp [alSet]
      · simp only [alGet, hk, if_neg hk] at h
        simp [alSet, hk, ih h]

theorem alRemove_of_none {α : Type} {l : List (String × α)} {k : String}
    (h : alGet l k = none) : alRemove l k = l := by
  refine List.filter_eq_self.2 ?_
  intro e he
  have := alGet_eq_none_iff.1 h e he
  simpa using this

/-! ### Characterizations of a successful tick -/

theorem tick_success (s : RegState) (a : String) (sub : Sub) (pd : PriceData)
    (n : Nat) (hs : alGet s a = some sub) (ht : sub.timerActive = true) :
    tick a (some pd) n s =
      if sub.lastPrice ≠ some pd.priceUsd ∨ sub.lastPrice = none then
        (alSet s a
          { sub with
            lastFetch := n, fetchCount := sub.fetchCount + 1,
            errorCount := 0,
            clients := (runCallbacks (tickEvent a sub pd n) sub.lastPrice sub.clients).1,
            lastPrice := some pd.priceUsd },
          (runCallbacks (tickEvent a sub pd n) sub.lastPrice sub.clients).2)
      else
        (alSet s a
          { sub with
            lastFetch := n, fetchCount := sub.fetchCount + 1,
            errorCount := 0 }, []) := by
  unfold tick tickEvent
  rw [hs]
  simp only [ht, Bool.true_eq_false, if_false]

theorem tick_failure (s : RegState) (a : String) (sub : Sub) (n : Nat)
    (hs : alGet s a = some sub) (ht : sub.timerActive = true) :
    tick a none n s =
      if sub.errorCount + 1 ≥ MAX_ERROR_COUNT then (alRemove s a, [])
      else
        (alSet s a
          { sub with
            lastFetch := n, fetchCount := sub.fetchCount + 1,
            errorCount := sub.errorCount + 1 }, []) := by
  unfold tick
  rw [hs]
  simp only [ht, Bool.true_eq_false, if_false]

/-! ### Claim C1 -/

/-- C1: the claim that a Subscription's timer runs iff its subscriber map
is non-empty fails on the code: after one subscribe with a throwing
callback and one successful tick, the emit loop removes the last
subscriber but the timer keeps running. -/
theorem c1_timer_iff_subscribers_counterexample :
    ¬ (∀ e ∈ runReg c1CexOps, e.2.timerActive = true ↔ e.2.clients ≠ []) := by
  decide

/-- C1 (amended): between operations, every Subscription present in the
registry has a running timer (so non-empty subscribers still implies a
running timer, and timers exist only for registered Subscriptions); the
converse fails only for the states of the counterexample. -/
theorem c1_timer_runs_while_registered (ops : List RegOp) :
    ∀ e ∈ runReg ops, e.2.timerActive = true :=
  timersOn_runReg ops

/-- Witness: the amended C1 invariant evaluated on a one-subscribe run. -/
theorem c1_timer_runs_while_registered_witness : c1WitSub.timerActive = true :=
  c1_timer_runs_while_registered c1WitOps (addrA, c1WitSub) (by decide)

/-! ### Claim C2 -/

/-- C2: on a tick with a successful fetch, each subscriber receives an
invocation iff `lastPrice` is null or differs from the fetched price
string; the event's `change` is `unchanged` on first observation and
otherwise follows the numeric comparison of the fetched price with the
previous one; and the fetched sequence 1.00, 1.00, 1.00, 1.05 to a single
subscriber produces exactly the two events 1.00 and 1.05. -/
theorem c2_change_only_emission (s : RegState) (a : String) (sub : Sub)
    (pd : PriceData) (n : Nat) (hs : alGet s a = some sub)
    (ht : sub.timerActive = true) :
    (∀ c ∈ sub.clients,
        ((∃ r ∈ (tick a (some pd) n s).2, r.clientId = c.1) ↔
          (sub.lastPrice = none ∨ sub.lastPrice ≠ some pd.priceUsd))) ∧
    (∀ r ∈ (tick a (some pd) n s).2,
        r.event.change =
          match sub.lastPrice with
          | none => PriceChange.unchanged
          | some old => numChange old pd.priceUsd) ∧
    (runRegT c2SeqOps).2.map (fun r => r.event.priceUsd) = ["1.00", "1.05"] := by
  rw [tick_success s a sub pd n hs ht]
  by_cases hc : sub.lastPrice ≠ some pd.priceUsd ∨ sub.lastPrice = none
  · rw [if_pos hc]
    refine ⟨?_, ?_, by decide⟩
    · intro c hcmem
      constructor
      · intro _
        rcases hc with h | h
        · exact Or.inr h
        · exact Or.inl h
      · intro _
        have hmap := runCallbacks_clientIds (tickEvent a sub pd n) sub.lastPrice sub.clients
        have hmem : c.1 ∈ sub.clients.map (fun c => c.1) :=
          List.mem_map_of_mem _ hcmem
        rw [← hmap] at hmem
        rcases List.mem_map.1 hmem with ⟨r, hr, hrid⟩
        exact ⟨r, hr, hrid⟩
    · intro r hr
      have hev := (runCallbacks_event (tickEvent a sub pd n) sub.lastPrice sub.clients r hr).1
      rw [hev]
      cases hl : sub.lastPrice with
      | none => simp [tickEvent, hl]
      | some old =>
          simp only [tickEvent, hl]
          by_cases h1 : old ≠ "" ∧ pd.priceUsd ≠ ""
          · simp [h1]
          · rw [if_neg h1]
            by_cases h2 : old = ""
            · rw [h2, numChange_empty_left]
            · have h3 : pd.priceUsd = "" := by
                by_contra h4
                exact h1 ⟨h2, h4⟩
              rw [h3, numChange_empty_right]
  · rw [if_neg hc]
    push_neg at hc
    refine ⟨?_, ?_, by decide⟩
    · intro c hcmem
      constructor
      · rintro ⟨r, hr, _⟩
        exact absurd hr (List.not_mem_nil r)
      · rintro (h | h)
        · exact absurd h hc.2
        · exact absurd hc.1 h
    · intro r hr
      exact absurd hr (List.not_mem_nil r)

/-- Witness: the change-only emission theorem applied to a fresh
subscription observing the price 1.00. -/
theorem c2_change_only_emission_witness :
    ∃ r ∈ (tick addrA (some { priceUsd := "1.00", priceChange24h := 0 })
      2000 [(addrA, c1WitSub)]).2, r.clientId = "clientA" := by
  have h := (c2_change_only_emission [(addrA, c1WitSub)] addrA c1WitSub
    { priceUsd := "1.00", priceChange24h := 0 } 2000 (by decide) (by decide)).1
    ("clientA", okCB) (by decide)
  exact h.mpr (Or.inl (by decide))

/-! ### Claim C3 -/

/-- C3: the claim that `lastPrice` is set before callbacks run fails on
the code: on the very first emission the callback observes
`lastPrice = null` while the event carries the fetched price (the code
assigns `lastPrice` only after the emit loop, line 249). -/
theorem c3_lastPrice_before_callbacks_counterexample :
    ¬ (∀ r ∈ (runRegT [RegOp.add addrA "clientA" okCB,
        RegOp.tick addrA (some { priceUsd := "1.2345", priceChange24h := 0 }) 2000]).2,
      r.observedLastPrice = some r.event.priceUsd) := by
  decide

/-- C3 (amended): during an emitting tick every callback observes the
previous `lastPrice` (the value before the tick), and `lastPrice` equals
the emitted price only once the tick's notification loop has finished. -/
theorem c3_lastPrice_updated_after_callbacks (s : RegState) (a : String)
    (sub : Sub) (pd : PriceData) (n : Nat) (hs : alGet s a = some sub)
    (ht : sub.timerActive = true) :
    (∀ r ∈ (tick a (some pd) n s).2, r.observedLastPrice = sub.lastPrice) ∧
    ((sub.lastPrice = none ∨ sub.lastPrice ≠ some pd.priceUsd) →
      ∃ sub', alGet (tick a (some pd) n s).1 a = some sub' ∧
        sub'.lastPrice = some pd.priceUsd) := by
  rw [tick_success s a sub pd n hs ht]
  by_cases hc : sub.lastPrice ≠ some pd.priceUsd ∨ sub.lastPrice = none
  · rw [if_pos hc]
    constructor
    · intro r hr
      exact (runCallbacks_event _ _ _ r hr).2
    · intro _
      exact ⟨_, alGet_alSet_self s a _, rfl⟩
  · rw [if_neg hc]
    push_neg at hc
    constructor
    · intro r hr
      exact absurd hr (List.not_mem_nil r)
    · rintro (h | h)
      · exact absurd h hc.2
      · exact absurd hc.1 h

/-- Witness: after the first emitting tick, the stored `lastPrice` is the
emitted price. -/
theorem c3_lastPrice_updated_after_callbacks_witness :
    ∃ sub', alGet (tick addrA (some { priceUsd := "1.00", priceChange24h := 0 })
        2000 [(addrA, c1WitSub)]).1 addrA = some sub' ∧
      sub'.lastPrice = some "1.00" :=
  (c3_lastPrice_updated_after_callbacks [(addrA, c1WitSub)] addrA c1WitSub
      { priceUsd := "1.00", priceChange24h := 0 } 2000 (by decide) (by decide)).2
    (Or.inl (by decide))

/-! ### Claim C4 -/

/-- C4: a failed tick that brings the consecutive error count to the
threshold 5 deletes the Subscription (it vanishes from the stats
snapshot) regardless of subscriber count; below the threshold the counter
just increments with the timer still running; and any successful fetch
resets the counter to 0. -/
theorem c4_error_threshold_eviction (s : RegState) (a : String) (sub : Sub)
    (n m : Nat) (hs : alGet s a = some sub) (ht : sub.timerActive = true) :
    (sub.errorCount + 1 ≥ MAX_ERROR_COUNT →
      alGet (tick a none n s).1 a = none ∧
      ∀ e ∈ (getSubscriptionStats m (tick a none n s).1).subscriptions,
        e.pairAddress ≠ a) ∧
    (sub.errorCount + 1 < MAX_ERROR_COUNT →
      alGet (tick a none n s).1 a =
        some { sub with
          lastFetch := n, fetchCount := sub.fetchCount + 1,
          errorCount := sub.errorCount + 1 } ∧
      ({ sub with
          lastFetch := n, fetchCount := sub.fetchCount + 1,
          errorCount := sub.errorCount + 1 } : Sub).timerActive = true) ∧
    (∀ pd, ∃ sub', alGet (tick a (some pd) n s).1 a = some sub' ∧
      sub'.errorCount = 0) := by
  refine ⟨?_, ?_, ?_⟩
  · intro hge
    rw [tick_failure s a sub n hs ht, if_pos hge]
    refine ⟨alGet_alRemove_self s a, ?_⟩
    intro e he
    simp only [getSubscriptionStats] at he
    rcases List.mem_map.1 he with ⟨f, hf, rfl⟩
    exact alGet_eq_none_iff.1 (alGet_alRemove_self s a) f hf
  · intro hlt
    rw [tick_failure s a sub n hs ht, if_neg (by omega)]
    exact ⟨alGet_alSet_self s a _, ht⟩
  · intro pd
    rw [tick_success s a sub pd n hs ht]
    by_cases hc : sub.lastPrice ≠ some pd.priceUsd ∨ sub.lastPrice = none
    · rw [if_pos hc]
      exact ⟨_, alGet_alSet_self s a _, rfl⟩
    · rw [if_neg hc]
      exact ⟨_, alGet_alSet_self s a _, rfl⟩

/-- Witness: a fifth consecutive failure deletes the subscription. -/
theorem c4_error_threshold_eviction_witness :
    alGet (tick addrA none 10000 c4WitState).1 addrA = none :=
  ((c4_error_threshold_eviction c4WitState addrA c4WitSub 10000 10000
      (by decide) (by decide)).1 (by decide)).1

/-! ### Claim C5 -/

/-- C5: the claim that unsubscribing a client that is not subscribed
always returns `false` fails on the code: when the identifier exists and
other subscribers remain, `removeSubscription` returns `true`
(`hasRemainingSubscribers`), although the state is unchanged. -/
theorem c5_unsubscribe_returns_false_counterexample :
    removeSubscription addrA "clientB" [(addrA, c1WitSub)] =
      ([(addrA, c1WitSub)], true) := by
  decide

/-- C5 (amended): unsubscribing against a missing identifier is a no-op
returning `false`; unsubscribing a client that is not in an existing
Subscription's non-empty map is a no-op on the whole state (no other
client's callback and no timer is affected) but returns `true`, the code's
`hasRemainingSubscribers` value; neither case throws. -/
theorem c5_unsubscribe_noop (s : RegState) (a c : String) :
    (alGet s a = none → removeSubscription a c s = (s, false)) ∧
    (∀ sub, alGet s a = some sub → alGet sub.clients c = none →
      sub.clients ≠ [] → removeSubscription a c s = (s, true)) := by
  constructor
  · intro h
    unfold removeSubscription
    rw [h]
  · intro sub hsub hc hne
    unfold removeSubscription
    rw [hsub]
    have hrem : alRemove sub.clients c = sub.clients := alRemove_of_none hc
    simp only [hrem]
    rw [if_neg (by simpa [List.length_eq_zero] using hne)]
    have heta : ({ sub with clients := sub.clients } : Sub) = sub := rfl
    rw [heta, alSet_same hsub]

/-- Witness: unsubscribing from an identifier with no Subscription is a
no-op returning `false`. -/
theorem c5_unsubscribe_noop_witness :
    removeSubscription tok2 "clientB" [(addrA, c1WitSub)] =
      ([(addrA, c1WitSub)], false) :=
  (c5_unsubscribe_noop [(addrA, c1WitSub)] tok2 "clientB").1 (by decide)

/-! ### Lemmas on unsubscription folds (for claim C7) -/

theorem alGet_alRemove_of_none {α : Type} {l : List (String × α)} {k : String}
    (k' : String) (h : alGet l k = none) : alGet (alRemove l k') k = none := by
  by_cases hk : k = k'
  · subst hk
    exact alGet_alRemove_self l k
  · rw [alGet_alRemove_ne l k' k hk]
    exact h

theorem removeSubscription_no_client (r : RegState) (a c : String) :
    ∀ sub', alGet (removeSubscription a c r).1 a = some sub' →
      alGet sub'.clients c = none := by
  intro sub' h
  unfold removeSubscription at h
  cases hg : alGet r a with
  | none =>
      simp only [hg] at h
      simp at h
  | some sub =>
      simp only [hg] at h
      by_cases hc : (alRemove sub.clients c).length = 0
      · rw [if_pos hc] at h
        rw [alGet_alRemove_self] at h
        simp at h
      · rw [if_neg hc] at h
        rw [alGet_alSet_self] at h
        simp only [Option.some.injEq] at h
        subst h
        exact alGet_alRemove_self sub.clients c

theorem removeSubscription_preserves_no_client (r : RegState)
    (a a' c c' : String)
    (h : ∀ sub, alGet r a = some sub → alGet sub.clients c = none) :
    ∀ sub', alGet (removeSubscription a' c' r).1 a = some sub' →
      alGet sub'.clients c = none := by
  intro sub' h'
  unfold removeSubscription at h'
  cases hg : alGet r a' with
  | none =>
      simp only [hg] at h'
      exact h sub' h'
  | some sub =>
      simp only [hg] at h'
      by_cases hc : (alRemove sub.clients c').length = 0
      · rw [if_pos hc] at h'
        by_cases ha : a = a'
        · subst ha
          rw [alGet_alRemove_self] at h'
          simp at h'
        · rw [alGet_alRemove_ne r a' a ha] at h'
          exact h sub' h'
      · rw [if_neg hc] at h'
        by_cases ha : a = a'
        · subst ha
          rw [alGet_alSet_self] at h'
          simp only [Option.some.injEq] at h'
          subst h'
          exact alGet_alRemove_of_none c' (h sub hg)
        · rw [alGet_alSet_ne r a' a _ ha] at h'
          exact h sub' h'

theorem removeSubscription_preserves_absent (r : RegState) (a a' c' : String)
    (h : alGet r a = none) :
    alGet (removeSubscription a' c' r).1 a = none := by
  unfold removeSubscription
  cases hg : alGet r a' with
  | none =>
      simp only [hg]
      exact h
  | some sub =>
      simp only [hg]
      by_cases hc : (alRemove sub.clients c').length = 0
      · rw [if_pos hc]
        exact alGet_alRemove_of_none a' h
      · rw [if_neg hc]
        by_cases ha : a = a'
        · subst ha
          rw [hg] at h
          simp at h
        · rw [alGet_alSet_ne r a' a _ ha]
          exact h

theorem removeSubscription_frame (r : RegState) (a a' c' : String)
    (ha : a ≠ a') :
    alGet (removeSubscription a' c' r).1 a = alGet r a := by
  unfold removeSubscription
  cases hg : alGet r a' with
  | none =>
      simp only [hg]
  | some sub =>
      simp only [hg]
      by_cases hc : (alRemove sub.clients c').length = 0
      · rw [if_pos hc]
        exact alGet_alRemove_ne r a' a ha
      · rw [if_neg hc]
        exact alGet_alSet_ne r a' a _ ha

theorem removeSubscription_sole (r : RegState) (a c : String) (sub : Sub)
    (cb : Callback) (hs : alGet r a = some sub)
    (hcl : sub.clients = [(c, cb)]) :
    alGet (removeSubscription a c r).1 a = none := by
  unfold removeSubscription
  rw [hs]
  have hempty : alRemove sub.clients c = [] := by
    rw [hcl]
    simp [alRemove]
  simp only [hempty, List.length_nil, if_pos]
  exact alGet_alRemove_self r a

theorem foldRemove_no_client (c : String) :
    ∀ (l : List String) (r : RegState) (a : String),
      (∀ sub, alGet r a = some sub → alGet sub.clients c = none) →
      ∀ sub', alGet (l.foldl (fun r x => (removeSubscription x c r).1) r) a
          = some sub' → alGet sub'.clients c = none := by
  intro l
  induction l with
  | nil =>
      intro r a h sub' h'
      exact h sub' h'
  | cons x t ih =>
      intro r a h sub' h'
      exact ih _ a (removeSubscription_preserves_no_client r a x c c h) sub' h'

theorem foldRemove_absent (c : String) :
    ∀ (l : List String) (r : RegState) (a : String), alGet r a = none →
      alGet (l.foldl (fun r x => (removeSubscription x c r).1) r) a = none := by
  intro l
  induction l with
  | nil =>
      intro r a h
      exact h
  | cons x t ih =>
      intro r a h
      exact ih _ a (removeSubscription_preserves_absent r a x c h)

theorem foldRemove_establishes (c : String) :
    ∀ (l : List String) (r : RegState) (a : String), a ∈ l →
      ∀ sub', alGet (l.foldl (fun r x => (removeSubscription x c r).1) r) a
          = some sub' → alGet sub'.clients c = none := by
  intro l
  induction l with
  | nil =>
      intro r a h
      simp at h
  | cons x t ih =>
      intro r a hmem sub' h'
      by_cases hax : a = x
      · subst hax
        exact foldRemove_no_client c t _ a
          (removeSubscription_no_client r a c) sub' h'
      · have hat : a ∈ t := by
          rcases List.mem_cons.1 hmem with h1 | h1
          · exact absurd h1 hax
          · exact h1
        exact ih _ a hat sub' h'

theorem foldRemove_sole (c : String) :
    ∀ (l : List String) (r : RegState) (a : String) (sub : Sub)
      (cb : Callback), a ∈ l → alGet r a = some sub →
      sub.clients = [(c, cb)] →
      alGet (l.foldl (fun r x => (removeSubscription x c r).1) r) a = none := by
  intro l
  induction l with
  | nil =>
      intro r a sub cb h
      simp at h
  | cons x t ih =>
      intro r a sub cb hmem hs hcl
      by_cases hax : a = x
      · subst hax
        exact foldRemove_absent c t _ a
          (removeSubscription_sole r a c sub cb hs hcl)
      · have hat : a ∈ t := by
          rcases List.mem_cons.1 hmem with h1 | h1
          · exact absurd h1 hax
          · exact h1
        have hframe := removeSubscription_frame r a x c hax
        exact ih _ a sub cb hat (by rw [hframe]; exact hs) hcl

/-! ### Claim C6 -/

/-- C6: the claim that a client already holding 5 subscriptions has a
further subscribe rejected, and hence never holds more than 5, fails on
the code: the limit is checked against the shared per-IP tracked set, so
after a same-IP client's unsubscribe shrinks that set, client A — still
holding 5 live registry subscriptions — gets a 6th accepted. -/
theorem c6_subscription_limit_counterexample :
    countClientSubs "A" gw8.registry = 5 ∧
    gw9.2 = SubscribeOutcome.subscribed true ∧
    countClientSubs "A" gw9.1.registry = 6 := by
  decide

/-- C6 (amended): the subscribe handler enforces the limit of 5 on the
source address's tracked subscription set: when the requester's IP tracker
holds 5 or more identifiers, a subscribe for a valid address is rejected
with the limit error and the whole state (registry and trackers) is left
unchanged. -/
theorem c6_limit_enforced_per_ip (gs : GWState) (ip cid : String)
    (cb : Callback) (a : String) (tr : Tracker)
    (htr : alGet gs.connectionTracker ip = some tr)
    (hlim : tr.subscriptions.length ≥ MAX_SUBSCRIPTIONS)
    (hval : validatePairAddress a = true) :
    handleSubscribe ip cid cb a gs = (gs, SubscribeOutcome.limitExceeded) := by
  unfold handleSubscribe
  simp only [hval, Bool.true_eq_false, if_false, htr]
  simp [hlim]

/-- Witness: with all five tracked slots used, a sixth valid subscribe is
rejected and mutates nothing. -/
theorem c6_limit_enforced_per_ip_witness :
    handleSubscribe ipA "A" okCB tok6 gw7 = (gw7, SubscribeOutcome.limitExceeded) :=
  c6_limit_enforced_per_ip gw7 ipA "A" okCB tok6
    { count := 2, lastConnection := 0,
      subscriptions := [tok1, tok2, tok3, tok4, tok5] }
    (by decide) (by decide) (by decide)

/-! ### Claim C7 -/

/-- C7: the claim that after a disconnect no Subscription retains a
callback for the client fails on the code: the disconnect loop iterates
the shared per-IP tracked set, so after a same-IP client's unsubscribe
removed the identifier from that set, the disconnecting client's registry
callback survives, together with its running timer. -/
theorem c7_disconnect_cleanup_counterexample :
    ¬ (∀ e ∈ gwD5.registry, alGet e.2.clients "A" = none) := by
  decide

/-- C7 (amended): disconnect handling unsubscribes the client from every
identifier in its source address's tracked set: afterwards no Subscription
for a tracked identifier retains the client's callback, and every tracked
identifier whose Subscription had the client as sole subscriber is deleted
(its timer cancelled).  Identifiers missing from the shared per-IP set are
not unwound — the counterexample. -/
theorem c7_disconnect_unwinds_tracked_set (gs : GWState) (ip cid : String)
    (tr : Tracker) (htr : alGet gs.connectionTracker ip = some tr) :
    (∀ a ∈ tr.subscriptions, ∀ sub',
        alGet (handleDisconnect ip cid gs).registry a = some sub' →
        alGet sub'.clients cid = none) ∧
    (∀ a ∈ tr.subscriptions, ∀ sub cb, alGet gs.registry a = some sub →
        sub.clients = [(cid, cb)] →
        alGet (handleDisconnect ip cid gs).registry a = none) := by
  unfold handleDisconnect
  simp only [htr]
  constructor
  · intro a ha sub' h'
    exact foldRemove_establishes cid tr.subscriptions gs.registry a ha sub' h'
  · intro a ha sub cb hs hcl
    exact foldRemove_sole cid tr.subscriptions gs.registry a sub cb ha hs hcl

/-- Witness: a sole subscriber's disconnect deletes its tracked
Subscription. -/
theorem c7_disconnect_unwinds_tracked_set_witness :
    alGet (handleDisconnect ipA "clientA"
      { connectionTracker :=
          [(ipA, { count := 1, lastConnection := 0, subscriptions := [addrA] })],
        registry := [(addrA, c1WitSub)] }).registry addrA = none :=
  (c7_disconnect_unwinds_tracked_set
      { connectionTracker :=
          [(ipA, { count := 1, lastConnection := 0, subscriptions := [addrA] })],
        registry := [(addrA, c1WitSub)] } ipA "clientA"
      { count := 1, lastConnection := 0, subscriptions := [addrA] }
      (by decide)).2 addrA (by decide) c1WitSub okCB (by decide) (by decide)

/-! ### Claim C8 -/

/-- C8: the claim that a failed refresh with a cached value serves the
stale cache with `meta.cacheHit = true` fails on the code: `cacheHit` is
set to `false` before the fetch is attempted and never restored, so the
stale response carries `meta.cacheHit = false` (and `X-Cache-Status:
MISS`). -/
theorem c8_stale_cachehit_counterexample :
    (handleTrendingGet 30000 none false none 0 c8CexState).2 =
      TrendingResult.ok [{ tag := 0 }]
        { cached := true, lastUpdate := 0, nextUpdate := 20000, count := 1,
          cacheHit := false, fetchDuration := none } false 30000 := by
  decide

/-- C8 (amended): when a refresh is attempted and the upstream fetch
throws, a non-empty cache is served as a normal 200 response (not an
error) with the stale tokens, but with `meta.cacheHit = false` and
`X-Cache-Status: MISS`; with an empty cache the request fails with the
structured no-data 500 error. -/
theorem c8_stale_fallback (now : Nat) (limitQ : Option Nat) (force : Bool)
    (fetchDur : Nat) (st : TrendingState)
    (hip : st.fetchInProgress = false)
    (href : (force || st.cachedTokens.isEmpty ||
      decide (now - st.lastFetch > CACHE_DURATION)) = true) :
    (st.cachedTokens ≠ [] →
      (handleTrendingGet now limitQ force none fetchDur st).1 = st ∧
      (handleTrendingGet now limitQ force none fetchDur st).2 =
        TrendingResult.ok (st.cachedTokens.take (trendingLimit limitQ))
          { cached := true, lastUpdate := st.lastFetch,
            nextUpdate := st.lastFetch + CACHE_DURATION,
            count := (st.cachedTokens.take (trendingLimit limitQ)).length,
            cacheHit := false, fetchDuration := none }
          false (now - st.lastFetch)) ∧
    (st.cachedTokens = [] →
      (handleTrendingGet now limitQ force none fetchDur st).2 =
        TrendingResult.serverError "Failed to fetch trending tokens"
          "No trending tokens available") := by
  unfold handleTrendingGet
  simp only [hip, Bool.not_false, Bool.and_true, href, if_true]
  constructor
  · intro hne
    rw [if_neg (by simp [List.isEmpty_iff, hne])]
    exact ⟨rfl, rfl⟩
  · intro he
    rw [if_pos (by simp [List.isEmpty_iff, he])]

/-- Witness: a forced refresh whose fetch throws serves the stale cache
with `cacheHit = false`, and an empty-cache failure yields the 500. -/
theorem c8_stale_fallback_witness :
    (handleTrendingGet 5000 none true none 0
      { cachedTokens := [{ tag := 1 }], lastFetch := 0,
        fetchInProgress := false }).2 =
      TrendingResult.ok [{ tag := 1 }]
        { cached := true, lastUpdate := 0, nextUpdate := 20000, count := 1,
          cacheHit := false, fetchDuration := none } false 5000 :=
  ((c8_stale_fallback 5000 none true 0
      { cachedTokens := [{ tag := 1 }], lastFetch := 0,
        fetchInProgress := false } (by decide) (by decide)).1 (by decide)).2

/-! ### Claim C9 -/

/-- C9: the claim that every non-expired cache entry is returned without
engaging the rate limiter fails on the code in one corner: `if (cached)`
tests the stored document's truthiness, so a fresh entry holding a falsy
JSON document (a cached 200 response with body `null`) is treated as a
miss and the rate limiter plus network are engaged. -/
theorem c9_fresh_entry_bypass_counterexample :
    (makeApiRequest 500 "u" 1000 (some ApiData.other) c9CexCache).rateLimited
        = true ∧
    (makeApiRequest 500 "u" 1000 (some ApiData.other) c9CexCache).networkCalled
        = true := by
  decide

/-- C9 (amended): with a positive TTL the URL-keyed cache is consulted
first; a non-expired entry holding a truthy document is returned without
engaging the rate limiter or the network and without changing the cache;
an entry is stale exactly when `now - fetchedAt > ttlMs`, in which case it
is removed and a rate-limited network call is forced (so a failing
refetch leaves no entry). -/
theorem c9_cache_ttl_semantics (now : Nat) (url : String) (ttl : Nat)
    (net : Option ApiData) (c : CacheState) (e : CacheEntry)
    (httl : ttl > 0) (he : alGet c url = some e) :
    (now - e.timestamp ≤ e.ttl → e.data.truthy = true →
      makeApiRequest now url ttl net c =
        { result := some e.data, rateLimited := false, networkCalled := false,
          cache := c }) ∧
    (now - e.timestamp > e.ttl →
      (makeApiRequest now url ttl net c).rateLimited = true ∧
      (makeApiRequest now url ttl net c).networkCalled = true ∧
      (makeApiRequest now url ttl net c).result = net ∧
      (net = none → alGet (makeApiRequest now url ttl net c).cache url = none)) := by
  unfold makeApiRequest cacheGet
  rw [if_pos httl]
  simp only [he]
  constructor
  · intro hfresh htruthy
    rw [if_neg (by omega)]
    simp only [htruthy, if_true]
  · intro hstale
    rw [if_pos hstale]
    cases net with
    | none => exact ⟨rfl, rfl, rfl, fun _ => alGet_alRemove_self c url⟩
    | some d =>
        refine ⟨rfl, rfl, rfl, ?_⟩
        intro hn
        cases hn

/-- Witness: a fresh truthy entry is served with no rate limiting and no
network call. -/
theorem c9_cache_ttl_semantics_witness :
    makeApiRequest 500 "u" 1000 none c9WitCache =
      { result := some ApiData.other, rateLimited := false,
        networkCalled := false, cache := c9WitCache } :=
  (c9_cache_ttl_semantics 500 "u" 1000 none c9WitCache
      { data := ApiData.other, timestamp := 0, ttl := 1000 }
      (by decide) (by decide)).1 (by decide) (by decide)

/-! ### Claim C10 -/

/-- C10: `fetchTokenPrice` is total over all upstream outcomes — a thrown
request, a falsy/invalid response, an empty pairs array, or a first pair
with falsy `priceUsd` or failing `isValidPair` all yield null — and every
non-null result carries a non-empty `priceUsd` taken from the first pair,
which passed `isValidPair` (chainId `base`, `0x` + 40 hex digit pair
address, named base token). -/
theorem c10_fetchTokenPrice_total (pa : String) (n : Nat) :
    fetchTokenPrice pa n .threw = none ∧
    fetchTokenPrice pa n (.ok none) = none ∧
    fetchTokenPrice pa n (.ok (some [])) = none ∧
    (∀ pair rest, (truthyS pair.priceUsd = false ∨ isValidPair pair = false) →
      fetchTokenPrice pa n (.ok (some (pair :: rest))) = none) ∧
    (∀ o pu, fetchTokenPrice pa n o = some pu →
      ∃ pair rest, o = .ok (some (pair :: rest)) ∧
        pair.priceUsd = some pu.priceUsd ∧ pu.priceUsd ≠ "" ∧
        isValidPair pair = true ∧ pair.chainId = some "base" ∧
        ethAddrField pair.pairAddress = true ∧
        truthyS pair.baseTokenName = true) := by
  refine ⟨rfl, rfl, rfl, ?_, ?_⟩
  · intro pair rest h
    show (if truthyS pair.priceUsd = false ∨ isValidPair pair = false then none
      else some
        { pairAddress := pa, priceUsd := pair.priceUsd.getD "",
          priceChange24h := pair.priceChangeH24.getD 0, timestamp := n }
      : Option PriceUpdate) = none
    rw [if_pos h]
  · intro o pu h
    cases o with
    | threw => simp [fetchTokenPrice] at h
    | ok pairs =>
        cases pairs with
        | none => simp [fetchTokenPrice] at h
        | some l =>
            cases l with
            | nil => simp [fetchTokenPrice] at h
            | cons pair rest =>
                have h2 : (if truthyS pair.priceUsd = false ∨
                      isValidPair pair = false then none
                    else some
                      { pairAddress := pa, priceUsd := pair.priceUsd.getD "",
                        priceChange24h := pair.priceChangeH24.getD 0,
                        timestamp := n }
                    : Option PriceUpdate) = some pu := h
                by_cases hcond : truthyS pair.priceUsd = false ∨
                    isValidPair pair = false
                · rw [if_pos hcond] at h2
                  cases h2
                · rw [if_neg hcond] at h2
                  push_neg at hcond
                  have htr : truthyS pair.priceUsd = true :=
                    (Bool.not_eq_false _) ▸ hcond.1
                  have hval : isValidPair pair = true :=
                    (Bool.not_eq_false _) ▸ hcond.2
                  simp only [Option.some.injEq] at h2
                  subst h2
                  have hcomponents := hval
                  simp only [isValidPair, Bool.and_eq_true, decide_eq_true_eq]
                    at hcomponents
                  obtain ⟨⟨⟨⟨⟨⟨_, hname⟩, _⟩, _⟩, _⟩, hchain⟩, haddr⟩ :=
                    hcomponents
                  cases hp : pair.priceUsd with
                  | none => rw [hp] at htr; simp [truthyS] at htr
                  | some s =>
                      refine ⟨pair, rest, rfl, ?_, ?_, hval, hchain, haddr, ?_⟩
                      · simp [hp]
                      · rw [hp] at htr
                        simpa [truthyS] using htr
                      · simpa [truthyS] using hname

/-- Witness: a valid first pair produces a price update whose `priceUsd`
is the pair's non-empty price string. -/
theorem c10_fetchTokenPrice_total_witness :
    ∃ pair rest,
      (FetchPriceOutcome.ok (some [c10WitPair]) : FetchPriceOutcome) =
        .ok (some (pair :: rest)) ∧
      pair.priceUsd = some "1.2345" ∧ ("1.2345" : String) ≠ "" ∧
      isValidPair pair = true ∧ pair.chainId = some "base" ∧
      ethAddrField pair.pairAddress = true ∧
      truthyS pair.baseTokenName = true :=
  (c10_fetchTokenPrice_total addrA 0).2.2.2.2 (.ok (some [c10WitPair]))
    { pairAddress := addrA, priceUsd := "1.2345", priceChange24h := 2,
      timestamp := 0 } (by decide)

end CoinSwipe
